import Mathlib

/-!
Verification of the MathAI pipeline (`src/main.py`) against its
natural-language specification.  The Python source is shallowly embedded:
pure computations become Lean functions, the Manim scene construction
becomes a pure event trace, and the orchestration (`MathTutor.create_video`)
becomes explicit state passing over an abstract environment describing the
three external services (language model, TTS, ffmpeg) and the filesystem.
-/

namespace MathAI

/-- One unit of a math explanation, as in the data model: an equation,
its prose explanation, and its spoken narration. -/
structure Step where
  equation : String
  explanation : String
  narration : String
  deriving DecidableEq, Repr

/-- Events emitted on the scene timeline by `MathScene.construct`:
writing an equation at vertical position `y` (equations sit at the left
anchor, shifted `UP * y`), writing an explanation text `next_to` the
equation at height `y` on the RIGHT, creating an arrow from the bottom of
the equation at height `y` pointing down, and a timeline wait of `t`
time units. -/
inductive SceneEvent where
  | writeEq (y : Int) (tex : String)
  | writeExpl (y : Int) (text : String)
  | createArrow (fromY : Int)
  | wait (t : Nat)
  deriving DecidableEq, Repr

/-- The loop body of `MathScene.construct` (src/main.py lines 22-50):
for each step, write the equation at `current_y`, write the explanation to
its right, decrement `current_y`, draw an arrow if `current_y > -3`
(the code's test — NOT "if not last step"), then wait 2. -/
def constructLoop : Int → List Step → List SceneEvent
  | _, [] => []
  | y, s :: rest =>
    SceneEvent.writeEq y s.equation ::
    SceneEvent.writeExpl y s.explanation ::
    ((if y - 1 > -3 then [SceneEvent.createArrow y] else []) ++
      (SceneEvent.wait 2 :: constructLoop (y - 1) rest))

/-- `MathScene.construct` (src/main.py lines 17-53): the loop starting at
`current_y = 3`, followed by the final `self.wait(2)`. -/
def construct (steps : List Step) : List SceneEvent :=
  constructLoop 3 steps ++ [SceneEvent.wait 2]

/-- Number of equation elements written to the scene. -/
def countEquations (evs : List SceneEvent) : Nat :=
  evs.countP (fun e => match e with | .writeEq _ _ => true | _ => false)

/-- Number of explanation text elements written to the scene. -/
def countExplanations (evs : List SceneEvent) : Nat :=
  evs.countP (fun e => match e with | .writeExpl _ _ => true | _ => false)

/-- Number of arrows created in the scene. -/
def countArrows (evs : List SceneEvent) : Nat :=
  evs.countP (fun e => match e with | .createArrow _ => true | _ => false)

/-- Vertical positions of the equations, in emission order. -/
def eqYs (evs : List SceneEvent) : List Int :=
  evs.filterMap (fun e => match e with | .writeEq y _ => some y | _ => none)

/-- Vertical anchors of the explanation texts, in emission order (each
explanation is placed to the RIGHT of the equation at this height). -/
def explYs (evs : List SceneEvent) : List Int :=
  evs.filterMap (fun e => match e with | .writeExpl y _ => some y | _ => none)

/-- Durations of the timeline waits, in order. -/
def waitTimes (evs : List SceneEvent) : List Nat :=
  evs.filterMap (fun e => match e with | .wait t => some t | _ => none)

/-- The single-step scenario from the spec (§8). -/
def exStep : Step :=
  { equation := "x+1=2", explanation := "subtract 1",
    narration := "We subtract one from both sides." }

/-- Python JSON values, the possible results of `json.loads`. -/
inductive Json where
  | null
  | bool (b : Bool)
  | num (n : Int)
  | str (s : String)
  | arr (elems : List Json)
  | obj (fields : List (String × Json))

/-- Python exceptions that can cross the layers modelled here. -/
inductive PyErr where
  | valueError (msg : String)
  | jsonDecodeError (msg : String)
  | keyError (key : String)
  | typeError (msg : String)
  | indexError (msg : String)
  | fileNotFoundError (path : String)
  | apiError (msg : String)
  deriving DecidableEq, Repr

/-- `str(e)` as used in the orchestrator's error print. -/
def errStr : PyErr → String
  | .valueError m => m
  | .jsonDecodeError m => m
  | .keyError k => k
  | .typeError m => m
  | .indexError m => m
  | .fileNotFoundError p => p
  | .apiError m => m

/-- Python truthiness of an `os.getenv` result: `None` and the empty
string are falsy, every other string is truthy. -/
def pyTruthy : Option String → Bool
  | none => false
  | some s => !(s == "")

/-- `MathTutor.__init__` (src/main.py lines 56-63): read the two
credential values and raise `ValueError` if either is falsy; on success
keep them as instance fields.  No environment of external services is
consulted: the constructor makes no external call. -/
def mathTutorInit (openai_api_key elevenlabs_api_key : Option String) :
    Except PyErr (Option String × Option String) :=
  if !(pyTruthy openai_api_key) || !(pyTruthy elevenlabs_api_key) then
    .error (.valueError "API keys for OpenAI and ElevenLabs are required")
  else
    .ok (openai_api_key, elevenlabs_api_key)

/-- The prompt built by `generate_explanation` from the question
(src/main.py lines 67-75). -/
def buildPrompt (question : String) : String :=
  "\n        Explain this math problem step by step:\n        " ++ question ++
  "\n        \n        Format your response as a JSON array with each step containing:\n" ++
  "        1. equation: The mathematical equation for this step\n" ++
  "        2. explanation: A clear explanation of what's happening\n" ++
  "        3. narration: Voice-over text for this step\n        "

/-- Exit code and output-file effect of one run of the external mux
tool (`ffmpeg`): whether it wrote the output file and, if so, its size
(`some 0` is an empty output file). -/
structure MuxBehavior where
  exitCode : Int
  output : Option Nat
  deriving DecidableEq, Repr

/-- Behaviour of the external services for one pipeline run: the
language model (a function of the prompt giving the completions'
message contents, or an API exception), the JSON decoder of the Python
standard library, the rendering engine, the speech API (a function of
the narration text giving the audio blob size, or an exception), and
the mux tool (which may itself fail to start, e.g. the executable is
missing). -/
structure Env where
  llm : String → Except PyErr (List String)
  loads : String → Except PyErr Json
  render : Except PyErr Nat
  tts : String → Except PyErr Nat
  mux : Except PyErr MuxBehavior

/-- `MathTutor.generate_explanation` (src/main.py lines 65-82): build
the prompt, call the model, take `response.choices[0].message.content`
(an `IndexError` if there is no completion), and return
`json.loads` of it unchanged — no validation of the parsed shape. -/
def generate_explanation (env : Env) (question : String) : Except PyErr Json :=
  match env.llm (buildPrompt question) with
  | .error e => .error e
  | .ok choices =>
    match choices.head? with
    | none => .error (.indexError "list index out of range")
    | some content => env.loads content

/-- Python iteration `for step in steps` over a JSON value: lists give
their elements, strings their characters, objects their keys; the
scalars are not iterable. -/
def pyIter : Json → Except PyErr (List Json)
  | .arr xs => .ok xs
  | .str s => .ok (s.data.map (fun c => Json.str (String.mk [c])))
  | .obj kvs => .ok (kvs.map (fun kv => Json.str kv.fst))
  | _ => .error (.typeError "object is not iterable")

/-- Python subscript `step[key]` on a JSON value: objects look the key
up (a `KeyError` if missing), everything else is a `TypeError` for a
string key. -/
def pyGetItem (j : Json) (key : String) : Except PyErr Json :=
  match j with
  | .obj kvs =>
    match kvs.lookup key with
    | some v => .ok v
    | none => .error (.keyError key)
  | _ => .error (.typeError "object is not subscriptable")

/-- The generator expression `(step['narration'] for step in steps)` as
consumed left to right by `str.join`, which also demands that every
element be a string; the first exception raised wins. -/
def narrationTextsList : List Json → Except PyErr (List String)
  | [] => .ok []
  | s :: rest =>
    match pyGetItem s "narration" with
    | .error e => .error e
    | .ok (.str t) =>
      match narrationTextsList rest with
      | .error e => .error e
      | .ok ts => .ok (t :: ts)
    | .ok _ => .error (.typeError "sequence item: expected str instance")

/-- The narration strings extracted from the JSON steps value. -/
def narrationTexts (steps : Json) : Except PyErr (List String) :=
  match pyIter steps with
  | .error e => .error e
  | .ok items => narrationTextsList items

/-- `full_narration = " ".join(step['narration'] for step in steps)`
(src/main.py line 87). -/
def full_narration (steps : Json) : Except PyErr String :=
  (narrationTexts steps).map (String.intercalate " ")

/-- The local filesystem: each path maps to the size of the file at it,
or `none` if absent. -/
def FS : Type := String → Option Nat

/-- Write (create or overwrite) a file of size `sz` at path `p`. -/
def FS.write (fs : FS) (p : String) (sz : Nat) : FS :=
  fun q => if q = p then some sz else fs q

/-- `os.remove p`: delete the file, raising `FileNotFoundError` if it
is absent. -/
def FS.removeOp (fs : FS) (p : String) : Except PyErr FS :=
  match fs p with
  | none => .error (.fileNotFoundError p)
  | some _ => .ok (fun q => if q = p then none else fs q)

/-- The empty filesystem. -/
def FS.empty : FS := fun _ => none

/-- `MathTutor.create_narration` (src/main.py lines 84-99): join the
narrations, call the speech API on the joined text with the fixed voice
and model, save the audio to the hardcoded path `"narration.mp3"`, and
return that path. -/
def create_narration (env : Env) (steps : Json) (fs : FS) :
    Except PyErr (String × FS) :=
  match full_narration steps with
  | .error e => .error e
  | .ok text =>
    match env.tts text with
    | .error e => .error e
    | .ok audioSz => .ok ("narration.mp3", fs.write "narration.mp3" audioSz)

/-- `scene.render()`: the rendering engine either raises or produces
the silent video file at the hardcoded path (spec §4.2: "a single
rendered video file at a hardcoded path, overwritten on each run"). -/
def sceneRender (env : Env) (fs : FS) : Except PyErr FS :=
  match env.render with
  | .error e => .error e
  | .ok sz => .ok (fs.write "math_scene.mp4" sz)

/-- The `subprocess.run(['ffmpeg', ...])` call (src/main.py lines
117-124): without `check=True` it raises only if the tool cannot be
started; a nonzero exit status is returned in the `CompletedProcess`
and the caller is free to ignore it.  The tool may or may not have
written the output file. -/
def runMux (env : Env) (fs : FS) (outPath : String) :
    Except PyErr (Int × FS) :=
  match env.mux with
  | .error e => .error e
  | .ok b =>
    match b.output with
    | none => .ok (b.exitCode, fs)
    | some sz => .ok (b.exitCode, fs.write outPath sz)

/-- The `try` block of `MathTutor.create_video` (src/main.py lines
103-130): generate the steps, render the scene, synthesize the
narration, mux with ffmpeg (discarding the returned exit status),
delete both intermediate files, and return the hardcoded output path.
An error carries the filesystem as it stood when the exception was
raised. -/
def tryCreateVideo (env : Env) (question : String) (fs0 : FS) :
    Except (PyErr × FS) (String × FS) :=
  match generate_explanation env question with
  | .error e => .error (e, fs0)
  | .ok steps =>
    match sceneRender env fs0 with
    | .error e => .error (e, fs0)
    | .ok fs1 =>
      match create_narration env steps fs1 with
      | .error e => .error (e, fs1)
      | .ok (audio_path, fs2) =>
        match runMux env fs2 "final_explanation.mp4" with
        | .error e => .error (e, fs2)
        | .ok (_exitCode, fs3) =>
          match fs3.removeOp "math_scene.mp4" with
          | .error e => .error (e, fs3)
          | .ok fs4 =>
            match fs4.removeOp audio_path with
            | .error e => .error (e, fs4)
            | .ok fs5 => .ok ("final_explanation.mp4", fs5)

/-- `MathTutor.create_video` (src/main.py lines 101-134): the `try`
block above under a blanket `except Exception` that prints
`"Error creating video: " + str(e)` and returns `None`.  The result is
the returned value, the final filesystem, and the lines printed to
standard output by this function. -/
def create_video (env : Env) (question : String) (fs0 : FS) :
    Option String × FS × List String :=
  match tryCreateVideo env question fs0 with
  | .ok (path, fs) => (some path, fs, [])
  | .error (e, fs) => (none, fs, ["Error creating video: " ++ errStr e])

/-- The `main` entry point (src/main.py lines 136-148): construct the
tutor (an uncaught `ValueError` if a credential is missing — the
process dies with the filesystem untouched and nothing yet printed),
read the question, run `create_video`, and print the outcome. -/
def mainProg (openai_api_key elevenlabs_api_key : Option String)
    (env : Env) (question : String) (fs0 : FS) :
    Except (PyErr × FS × List String) (FS × List String) :=
  match mathTutorInit openai_api_key elevenlabs_api_key with
  | .error e => .error (e, fs0, [])
  | .ok _ =>
    match create_video env question fs0 with
    | (some p, fs, out) =>
      .ok (fs, ("Generating video explanation..." :: out) ++
        ["Explanation video created: " ++ p])
    | (none, fs, out) =>
      .ok (fs, ("Generating video explanation..." :: out) ++
        ["Failed to create explanation video"])

/-- The JSON object the language model is asked to produce for one step:
exactly the three string fields of the data model. -/
def stepToJson (s : Step) : Json :=
  .obj [("equation", .str s.equation), ("explanation", .str s.explanation),
        ("narration", .str s.narration)]

/-- A StepSequence as the JSON array the pipeline consumes. -/
def stepsToJson (ss : List Step) : Json :=
  .arr (ss.map stepToJson)

/-- Joining with single-space separators in original order, written the
way the specification describes it ("the narration fields joined with
single spaces in original order"). -/
def joinSpaceSpec : List String → String
  | [] => ""
  | [a] => a
  | a :: b :: rest => a ++ " " ++ joinSpaceSpec (b :: rest)

/-- Separator-prefixed join, the accumulator shape of
`String.intercalate.go`. -/
def sepJoin (s : String) : List String → String
  | [] => ""
  | a :: as => s ++ a ++ sepJoin s as

theorem strAppend_assoc (a b c : String) : a ++ b ++ c = a ++ (b ++ c) :=
  String.ext (by simp)

theorem strAppend_empty (a : String) : a ++ "" = a :=
  String.ext (by simp)

theorem intercalate_go_eq (as : List String) :
    ∀ acc s : String, String.intercalate.go acc s as = acc ++ sepJoin s as := by
  induction as with
  | nil =>
    intro acc s
    rw [String.intercalate.go, sepJoin, strAppend_empty]
  | cons a as ih =>
    intro acc s
    rw [String.intercalate.go, ih, sepJoin, strAppend_assoc, strAppend_assoc,
      strAppend_assoc]

theorem cons_sepJoin_eq_joinSpec (as : List String) :
    ∀ a : String, a ++ sepJoin " " as = joinSpaceSpec (a :: as) := by
  induction as with
  | nil =>
    intro a
    rw [sepJoin, joinSpaceSpec, strAppend_empty]
  | cons b bs ih =>
    intro a
    rw [sepJoin, joinSpaceSpec, ← ih b, strAppend_assoc, strAppend_assoc]

theorem intercalate_space_eq_joinSpec (l : List String) :
    String.intercalate " " l = joinSpaceSpec l := by
  cases l with
  | nil => rfl
  | cons a as =>
    rw [String.intercalate, intercalate_go_eq, cons_sepJoin_eq_joinSpec]

theorem getItem_narration (s : Step) :
    pyGetItem (stepToJson s) "narration" = .ok (.str s.narration) := rfl

theorem narrationTextsList_steps (ss : List Step) :
    narrationTextsList (ss.map stepToJson) = .ok (ss.map Step.narration) := by
  induction ss with
  | nil => rfl
  | cons s ss ih =>
    rw [List.map_cons, narrationTextsList, getItem_narration, ih, List.map_cons]

theorem narrationTexts_steps (ss : List Step) :
    narrationTexts (stepsToJson ss) = .ok (ss.map Step.narration) := by
  rw [narrationTexts, stepsToJson, pyIter]
  exact narrationTextsList_steps ss

theorem full_narration_steps (ss : List Step) :
    full_narration (stepsToJson ss) =
      .ok (String.intercalate " " (ss.map Step.narration)) := by
  rw [full_narration, narrationTexts_steps, Except.map]

theorem eqYs_append (a b : List SceneEvent) : eqYs (a ++ b) = eqYs a ++ eqYs b :=
  List.filterMap_append a b _

theorem explYs_append (a b : List SceneEvent) :
    explYs (a ++ b) = explYs a ++ explYs b :=
  List.filterMap_append a b _

theorem waitTimes_append (a b : List SceneEvent) :
    waitTimes (a ++ b) = waitTimes a ++ waitTimes b :=
  List.filterMap_append a b _

theorem eqYs_loop (l : List Step) :
    ∀ y : Int, eqYs (constructLoop y l) =
      (List.range l.length).map (fun (i : Nat) => y - (i : Int)) := by
  induction l with
  | nil => intro y; rfl
  | cons s rest ih =>
    intro y
    rw [constructLoop, eqYs]
    simp only [List.filterMap_cons, List.filterMap_append]
    by_cases h : y - 1 > -3 <;>
      simp only [h, if_true, if_false, List.filterMap_cons, List.filterMap_nil,
        List.nil_append] <;>
    · rw [show List.filterMap _ (constructLoop (y - 1) rest) =
          eqYs (constructLoop (y - 1) rest) from rfl, ih (y - 1),
        List.length_cons, List.range_succ_eq_map, List.map_cons, List.map_map]
      refine congrArg₂ _ (by simp) (List.map_congr_left ?_)
      intro i _
      simp only [Function.comp]
      push_cast
      ring

theorem explYs_loop (l : List Step) :
    ∀ y : Int, explYs (constructLoop y l) =
      (List.range l.length).map (fun (i : Nat) => y - (i : Int)) := by
  induction l with
  | nil => intro y; rfl
  | cons s rest ih =>
    intro y
    rw [constructLoop, explYs]
    simp only [List.filterMap_cons, List.filterMap_append]
    by_cases h : y - 1 > -3 <;>
      simp only [h, if_true, if_false, List.filterMap_cons, List.filterMap_nil,
        List.nil_append] <;>
    · rw [show List.filterMap _ (constructLoop (y - 1) rest) =
          explYs (constructLoop (y - 1) rest) from rfl, ih (y - 1),
        List.length_cons, List.range_succ_eq_map, List.map_cons, List.map_map]
      refine congrArg₂ _ (by simp) (List.map_congr_left ?_)
      intro i _
      simp only [Function.comp]
      push_cast
      ring

theorem waitTimes_loop (l : List Step) :
    ∀ y : Int, waitTimes (constructLoop y l) = List.replicate l.length 2 := by
  induction l with
  | nil => intro y; rfl
  | cons s rest ih =>
    intro y
    rw [constructLoop, waitTimes]
    simp only [List.filterMap_cons, List.filterMap_append]
    by_cases h : y - 1 > -3 <;>
      simp only [h, if_true, if_false, List.filterMap_cons, List.filterMap_nil,
        List.nil_append] <;>
    · rw [show List.filterMap _ (constructLoop (y - 1) rest) =
          waitTimes (constructLoop (y - 1) rest) from rfl, ih (y - 1),
        List.length_cons, List.replicate_succ]

theorem constructLoop_narration_free (l : List Step) :
    ∀ (y : Int) (f : Step → String),
      constructLoop y (l.map (fun s => { s with narration := f s })) =
        constructLoop y l := by
  induction l with
  | nil => intro y f; rfl
  | cons s rest ih =>
    intro y f
    rw [List.map_cons, constructLoop, constructLoop, ih]

/-- A well-behaved run: every external service succeeds, the mux tool
exits 0 and writes the output file. -/
def demoEnv : Env where
  llm := fun _ => .ok ["demo"]
  loads := fun _ => .ok (stepsToJson [exStep])
  render := .ok 100
  tts := fun _ => .ok 50
  mux := .ok { exitCode := 0, output := some 200 }

/-- A run whose language-model call raises an API exception. -/
def failEnv : Env where
  llm := fun _ => .error (.apiError "rate limit")
  loads := fun _ => .ok .null
  render := .ok 100
  tts := fun _ => .ok 50
  mux := .ok { exitCode := 0, output := some 200 }

/-- A run whose model answer is not valid JSON, so `json.loads` raises. -/
def badJsonEnv : Env where
  llm := fun _ => .ok ["not json"]
  loads := fun _ => .error (.jsonDecodeError "Expecting value")
  render := .ok 100
  tts := fun _ => .ok 50
  mux := .ok { exitCode := 0, output := some 200 }

/-- A run whose model answer parses to the scalar `5` — valid JSON, but
not an array of step objects. -/
def scalarEnv : Env where
  llm := fun _ => .ok ["5"]
  loads := fun _ => .ok (.num 5)
  render := .ok 100
  tts := fun _ => .ok 50
  mux := .ok { exitCode := 0, output := some 200 }

/-- A run where the four steps reach the mux, but the mux tool exits
nonzero and writes no output file. -/
def muxFailEnv : Env where
  llm := fun _ => .ok ["steps"]
  loads := fun _ => .ok (stepsToJson [exStep])
  render := .ok 100
  tts := fun _ => .ok 50
  mux := .ok { exitCode := 1, output := none }

/-- C1: evaluating `MathScene.construct` at the spec's single-step
scenario.  The code emits 1 equation and 1 explanation, but also 1
arrow: the arrow guard is `current_y > -3` (a canvas-position test,
which holds with `current_y = 2` after the only step), not "if not last
step" as the claim — and the code's own comment — state, so the claimed
0 arrows (N−1) is violated. -/
theorem single_step_scene_element_counts :
    countEquations (construct [exStep]) = 1
    ∧ countExplanations (construct [exStep]) = 1
    ∧ countArrows (construct [exStep]) = 1 := by
  decide

/-- C2: the Narrator's synthesized text is the narration fields joined
with single-space separators in original order (no reordering, no
deduplication), for every StepSequence; on the spec's single-step
scenario it is exactly "We subtract one from both sides.". -/
theorem narration_text_joined_in_order :
    (∀ ss : List Step,
      full_narration (stepsToJson ss) = .ok (joinSpaceSpec (ss.map Step.narration)))
    ∧ full_narration (stepsToJson [exStep]) =
        .ok "We subtract one from both sides." := by
  constructor
  · intro ss
    rw [full_narration_steps, intercalate_space_eq_joinSpec]
  · rw [full_narration_steps]
    rfl

/-- C8: for every StepSequence the equations sit at `y = 3 - i` (one
unit below the previous step, starting at 3), each explanation is
anchored to the right of its own equation (same height, RIGHT side),
every timeline pause has the fixed duration 2 — one after each step
plus the final one — and the scene is unchanged if all narration fields
are replaced, so the pause is not computed from the narration. -/
theorem scene_layout_policy :
    ∀ steps : List Step,
      eqYs (construct steps) =
        (List.range steps.length).map (fun (i : Nat) => (3 : Int) - (i : Int))
      ∧ explYs (construct steps) = eqYs (construct steps)
      ∧ waitTimes (construct steps) = List.replicate (steps.length + 1) 2
      ∧ ∀ f : Step → String,
          construct (steps.map (fun s => { s with narration := f s })) =
            construct steps := by
  intro steps
  refine ⟨?_, ?_, ?_, ?_⟩
  · rw [construct, eqYs_append, eqYs_loop,
      show eqYs [SceneEvent.wait 2] = [] from rfl, List.append_nil]
  · rw [construct, eqYs_append, explYs_append, eqYs_loop, explYs_loop,
      show eqYs [SceneEvent.wait 2] = [] from rfl,
      show explYs [SceneEvent.wait 2] = [] from rfl]
  · rw [construct, waitTimes_append, waitTimes_loop,
      show waitTimes [SceneEvent.wait 2] = [2] from rfl,
      ← List.replicate_succ']
  · intro f
    rw [construct, construct, constructLoop_narration_free]

/-- C5: if either credential environment variable is absent,
`MathTutor.__init__` raises the configuration `ValueError`, and the
whole program dies there — for every possible behaviour of the external
services, the filesystem is untouched and nothing has been printed, so
no pipeline step ran and no external call was attempted. -/
theorem missing_credentials_fail_startup :
    ∀ (o e : Option String) (env : Env) (q : String) (fs0 : FS),
      o = none ∨ e = none →
      mathTutorInit o e =
        .error (.valueError "API keys for OpenAI and ElevenLabs are required")
      ∧ mainProg o e env q fs0 =
        .error (.valueError "API keys for OpenAI and ElevenLabs are required",
          fs0, []) := by
  intro o e env q fs0 h
  have hcond : (!(pyTruthy o) || !(pyTruthy e)) = true := by
    rcases h with h | h <;> subst h <;> simp [pyTruthy]
  have hinit : mathTutorInit o e =
      .error (.valueError "API keys for OpenAI and ElevenLabs are required") := by
    rw [mathTutorInit, if_pos hcond]
  exact ⟨hinit, by rw [mainProg, hinit]⟩

/-- C5 witness: with the language-model key unset (and the speech key
present), construction fails with the configuration error and the run
touches nothing. -/
theorem missing_credentials_fail_startup_witness :
    ((none : Option String) = none ∨ some "sk-key" = (none : Option String))
    ∧ mathTutorInit none (some "sk-key") =
        .error (.valueError "API keys for OpenAI and ElevenLabs are required")
    ∧ mainProg none (some "sk-key") demoEnv "q" FS.empty =
        .error (.valueError "API keys for OpenAI and ElevenLabs are required",
          FS.empty, []) :=
  ⟨Or.inl rfl,
    (missing_credentials_fail_startup none (some "sk-key") demoEnv "q" FS.empty
      (Or.inl rfl)).1,
    (missing_credentials_fail_startup none (some "sk-key") demoEnv "q" FS.empty
      (Or.inl rfl)).2⟩

/-- C9: `generate_explanation` returns exactly the result of
`json.loads` on the first completion's text content, whatever JSON
value that is — no structural validation is performed. -/
theorem generate_explanation_returns_parse_unvalidated :
    ∀ (env : Env) (q content : String) (rest : List String) (j : Json),
      env.llm (buildPrompt q) = .ok (content :: rest) →
      env.loads content = .ok j →
      generate_explanation env q = .ok j := by
  intro env q content rest j h1 h2
  rw [generate_explanation, h1]
  exact h2

/-- C9 witness: a model answer parsing to the scalar `5` — not an array
of step objects — is returned as-is. -/
theorem generate_explanation_returns_parse_unvalidated_witness :
    Env.llm scalarEnv (buildPrompt "q") = .ok ["5"]
    ∧ Env.loads scalarEnv "5" = .ok (.num 5)
    ∧ generate_explanation scalarEnv "q" = .ok (.num 5) :=
  ⟨rfl, rfl,
    generate_explanation_returns_parse_unvalidated scalarEnv "q" "5" [] (.num 5)
      rfl rfl⟩

/-- C4: every exception raised inside the `try` block — any of the four
pipeline steps or the cleanup — is caught at the top of `create_video`,
printed to standard output as "Error creating video: ...", and turned
into the `None` return; and when nothing is raised the return is the
path, so `None` is the only error signal the caller sees. -/
theorem create_video_catches_and_logs :
    ∀ (env : Env) (q : String) (fs0 : FS),
      (∀ (e : PyErr) (fsE : FS),
        tryCreateVideo env q fs0 = .error (e, fsE) →
        create_video env q fs0 =
          (none, fsE, ["Error creating video: " ++ errStr e]))
      ∧ (∀ (p : String) (fs1 : FS),
        tryCreateVideo env q fs0 = .ok (p, fs1) →
        create_video env q fs0 = (some p, fs1, [])) := by
  intro env q fs0
  constructor <;> intro a b h <;> rw [create_video, h]

/-- C4 witness: a language-model API exception surfaces as the logged
message and a `None` result. -/
theorem create_video_catches_and_logs_witness :
    tryCreateVideo failEnv "q" FS.empty =
      .error (.apiError "rate limit", FS.empty)
    ∧ create_video failEnv "q" FS.empty =
        (none, FS.empty, ["Error creating video: " ++ errStr (.apiError "rate limit")]) :=
  ⟨rfl,
    (create_video_catches_and_logs failEnv "q" FS.empty).1
      (.apiError "rate limit") FS.empty rfl⟩

theorem tryCreateVideo_ok_path :
    ∀ (env : Env) (q : String) (fs0 : FS) (p : String) (fs1 : FS),
      tryCreateVideo env q fs0 = .ok (p, fs1) → p = "final_explanation.mp4" := by
  intro env q fs0 p fs1 h
  unfold tryCreateVideo at h
  repeat' split at h
  all_goals simp_all

/-- C10: whatever the question and whatever the external services do,
`create_video` returns either `None` or exactly the hardcoded string
"final_explanation.mp4" — the success value never depends on the
question or on per-run state. -/
theorem create_video_result_is_fixed :
    ∀ (env : Env) (q : String) (fs0 : FS),
      (create_video env q fs0).1 = none
      ∨ (create_video env q fs0).1 = some "final_explanation.mp4" := by
  intro env q fs0
  rw [create_video]
  cases h : tryCreateVideo env q fs0 with
  | error p => left; rfl
  | ok p =>
    right
    obtain ⟨p1, fs1⟩ := p
    have hp := tryCreateVideo_ok_path env q fs0 p1 fs1 h
    subst hp
    rfl

/-- C6: when the model's answer is not valid JSON, the `json.loads`
exception propagates out of `generate_explanation` to the blanket
handler: `create_video` returns `None`, the filesystem is exactly as it
started (no partial video artifact), and the parse error is the logged
message. -/
theorem invalid_json_yields_none :
    ∀ (env : Env) (q content : String) (rest : List String) (e : PyErr)
      (fs0 : FS),
      env.llm (buildPrompt q) = .ok (content :: rest) →
      env.loads content = .error e →
      create_video env q fs0 = (none, fs0, ["Error creating video: " ++ errStr e])
      ∧ (fs0 "final_explanation.mp4" = none →
          ((create_video env q fs0).2.1) "final_explanation.mp4" = none) := by
  intro env q content rest e fs0 h1 h2
  have hgen : generate_explanation env q = .error e := by
    rw [generate_explanation, h1]
    exact h2
  have htry : tryCreateVideo env q fs0 = .error (e, fs0) := by
    rw [tryCreateVideo, hgen]
  have hcv : create_video env q fs0 =
      (none, fs0, ["Error creating video: " ++ errStr e]) := by
    rw [create_video, htry]
  exact ⟨hcv, fun h0 => by rw [hcv]; exact h0⟩

/-- The filesystem state after a run in which all four steps completed
and the cleanup ran: both intermediates deleted, the output file
present exactly when the mux tool wrote it, everything else as it
started. -/
def successFS (fs0 : FS) (b : MuxBehavior) : FS :=
  fun p =>
    if p = "narration.mp3" then none
    else if p = "math_scene.mp4" then none
    else
      match b.output with
      | none => fs0 p
      | some sz => if p = "final_explanation.mp4" then some sz else fs0 p

theorem tryCreateVideo_success :
    ∀ (env : Env) (q content : String) (rest : List String) (steps : Json)
      (vsz asz : Nat) (text : String) (b : MuxBehavior) (fs0 : FS),
      env.llm (buildPrompt q) = .ok (content :: rest) →
      env.loads content = .ok steps →
      env.render = .ok vsz →
      full_narration steps = .ok text →
      env.tts text = .ok asz →
      env.mux = .ok b →
      tryCreateVideo env q fs0 = .ok ("final_explanation.mp4", successFS fs0 b) := by
  intro env q content rest steps vsz asz text b fs0 h1 h2 h3 h4 h5 h6
  have hgen : generate_explanation env q = .ok steps := by
    rw [generate_explanation, h1]
    exact h2
  obtain ⟨code, outp⟩ := b
  cases outp with
  | none =>
    simp only [tryCreateVideo, hgen, sceneRender, h3, create_narration, h4, h5,
      runMux, h6]
    simp [FS.removeOp, FS.write]
    funext p
    by_cases hp1 : p = "narration.mp3" <;> by_cases hp2 : p = "math_scene.mp4" <;>
      simp [successFS, FS.write, hp1, hp2]
  | some osz =>
    simp only [tryCreateVideo, hgen, sceneRender, h3, create_narration, h4, h5,
      runMux, h6]
    simp [FS.removeOp, FS.write]
    funext p
    by_cases hp1 : p = "narration.mp3" <;> by_cases hp2 : p = "math_scene.mp4" <;>
      by_cases hp3 : p = "final_explanation.mp4" <;>
      simp [successFS, FS.write, hp1, hp2, hp3]

/-- C3: when the four steps all reach the mux and the external mux tool
fails — nonzero exit status, or no output file, or an empty one —
`create_video` checks nothing: it still deletes both intermediate files,
prints no error, and returns the (possibly invalid) output path instead
of `None`. -/
theorem mux_failure_not_detected :
    ∀ (env : Env) (q content : String) (rest : List String) (steps : Json)
      (vsz asz : Nat) (text : String) (b : MuxBehavior) (fs0 : FS),
      env.llm (buildPrompt q) = .ok (content :: rest) →
      env.loads content = .ok steps →
      env.render = .ok vsz →
      full_narration steps = .ok text →
      env.tts text = .ok asz →
      env.mux = .ok b →
      b.exitCode ≠ 0 ∨ b.output = none ∨ b.output = some 0 →
      create_video env q fs0 = (some "final_explanation.mp4", successFS fs0 b, [])
      ∧ successFS fs0 b "math_scene.mp4" = none
      ∧ successFS fs0 b "narration.mp3" = none := by
  intro env q content rest steps vsz asz text b fs0 h1 h2 h3 h4 h5 h6 _h7
  have htry := tryCreateVideo_success env q content rest steps vsz asz text b fs0
    h1 h2 h3 h4 h5 h6
  refine ⟨by rw [create_video, htry], ?_, ?_⟩ <;> obtain ⟨code, outp⟩ := b <;>
    cases outp <;> simp [successFS]

/-- C3 witness: a mux run exiting 1 without producing an output file is
still reported as success: the path is returned and the intermediates
are gone. -/
theorem mux_failure_not_detected_witness :
    ((1 : Int) ≠ 0 ∨ (none : Option Nat) = none ∨ (none : Option Nat) = some 0)
    ∧ create_video muxFailEnv "q" FS.empty =
        (some "final_explanation.mp4",
          successFS FS.empty { exitCode := 1, output := none }, [])
    ∧ successFS FS.empty { exitCode := 1, output := none } "math_scene.mp4" = none
    ∧ successFS FS.empty { exitCode := 1, output := none } "narration.mp3" = none := by
  have h := mux_failure_not_detected muxFailEnv "q" "steps" [] (stepsToJson [exStep])
    100 50 "We subtract one from both sides." { exitCode := 1, output := none }
    FS.empty rfl rfl rfl rfl rfl rfl (Or.inl (by decide))
  exact ⟨Or.inl (by decide), h.1, h.2.1, h.2.2⟩

/-- C7: on full success (all four steps succeed, the mux tool exits 0
and writes the output), both intermediate files are deleted before
returning, only the muxed output remains on an initially empty disk, and
the returned value is the output path. -/
theorem success_cleanup_leaves_only_output :
    ∀ (env : Env) (q content : String) (rest : List String) (steps : Json)
      (vsz asz osz : Nat) (text : String),
      env.llm (buildPrompt q) = .ok (content :: rest) →
      env.loads content = .ok steps →
      env.render = .ok vsz →
      full_narration steps = .ok text →
      env.tts text = .ok asz →
      env.mux = .ok { exitCode := 0, output := some osz } →
      create_video env q FS.empty =
        (some "final_explanation.mp4",
          successFS FS.empty { exitCode := 0, output := some osz }, [])
      ∧ successFS FS.empty { exitCode := 0, output := some osz }
          "math_scene.mp4" = none
      ∧ successFS FS.empty { exitCode := 0, output := some osz }
          "narration.mp3" = none
      ∧ successFS FS.empty { exitCode := 0, output := some osz }
          "final_explanation.mp4" = some osz
      ∧ ∀ p, p ≠ "final_explanation.mp4" →
          successFS FS.empty { exitCode := 0, output := some osz } p = none := by
  intro env q content rest steps vsz asz osz text h1 h2 h3 h4 h5 h6
  have htry := tryCreateVideo_success env q content rest steps vsz asz text
    { exitCode := 0, output := some osz } FS.empty h1 h2 h3 h4 h5 h6
  refine ⟨by rw [create_video, htry], by simp [successFS], by simp [successFS],
    by simp [successFS], ?_⟩
  intro p hp
  by_cases hp1 : p = "narration.mp3" <;> by_cases hp2 : p = "math_scene.mp4" <;>
    simp [successFS, FS.empty, hp1, hp2, hp]

/-- C7 witness: a fully successful demo run returns the output path and
leaves exactly the 200-byte muxed file on the initially empty disk. -/
theorem success_cleanup_leaves_only_output_witness :
    create_video demoEnv "q" FS.empty =
      (some "final_explanation.mp4",
        successFS FS.empty { exitCode := 0, output := some 200 }, [])
    ∧ successFS FS.empty { exitCode := 0, output := some 200 }
        "final_explanation.mp4" = some 200
    ∧ successFS FS.empty { exitCode := 0, output := some 200 }
        "math_scene.mp4" = none
    ∧ successFS FS.empty { exitCode := 0, output := some 200 }
        "narration.mp3" = none := by
  have h := success_cleanup_leaves_only_output demoEnv "q" "demo" []
    (stepsToJson [exStep]) 100 50 200 "We subtract one from both sides."
    rfl rfl rfl rfl rfl rfl
  exact ⟨h.1, h.2.2.2.1, h.2.1, h.2.2.1⟩

/-- C6 witness: a non-JSON model answer makes the run fail with `None`
and leaves the (initially empty) filesystem empty. -/
theorem invalid_json_yields_none_witness :
    Env.llm badJsonEnv (buildPrompt "q") = .ok ["not json"]
    ∧ Env.loads badJsonEnv "not json" = .error (.jsonDecodeError "Expecting value")
    ∧ create_video badJsonEnv "q" FS.empty =
        (none, FS.empty,
          ["Error creating video: " ++ errStr (.jsonDecodeError "Expecting value")]) :=
  ⟨rfl, rfl,
    (invalid_json_yields_none badJsonEnv "q" "not json" []
      (.jsonDecodeError "Expecting value") FS.empty rfl rfl).1⟩

end MathAI
